import Mathlib

/-!
Shallow embedding of the CNC drawing-metrics program (src/cnc.py).

The program consumes an already-parsed sequence of typed DXF entities and
computes: per-entity and total area, an entity census over a fixed key set,
bounding extents per axis (thickness = Y extent, width = X extent, tracked
with plus and minus infinity sentinels), a four-pass machine cut length, and a derived
weight figure.  Python floats are modelled as real numbers; the infinity
sentinels of the extent trackers are modelled with `EReal` (the reals with
both infinities), whose `⊤` and `⊥` play the role of `float('inf')` and
`float('-inf')`.
-/

namespace Cnc

/-- A 2D point, as accessed via `.x` / `.y` on DXF point attributes. -/
structure Point where
  x : ℝ
  y : ℝ

/-- A polyline vertex as the code accesses it: coordinates `.x` / `.y`
(bounds passes) and a per-segment `.length` attribute (cut-length pass). -/
structure Vertex where
  x : ℝ
  y : ℝ
  length : ℝ

/-- A typed DXF entity carrying exactly the attributes the code reads.
`end` is a reserved word in Lean, so a line's end point is called `endp`.
Polylines carry the library-provided enclosed `area` attribute and their
vertex list.  `other` stands for any entity of an unrecognized type, with
its type tag. -/
inductive Entity where
  | line (start endp : Point)
  | lwpolyline (vertices : List Vertex) (area : ℝ)
  | polyline (vertices : List Vertex) (area : ℝ)
  | circle (center : Point) (radius : ℝ)
  | arc (center : Point) (radius : ℝ) (start_angle end_angle : ℝ)
  | text
  | mtext
  | other (tag : String)

/-- `entity.dxftype()`: the DXF type tag string of an entity. -/
def Entity.dxftype : Entity → String
  | .line _ _ => "LINE"
  | .lwpolyline _ _ => "LWPOLYLINE"
  | .polyline _ _ => "POLYLINE"
  | .circle _ _ => "CIRCLE"
  | .arc _ _ _ _ => "ARC"
  | .text => "TEXT"
  | .mtext => "MTEXT"
  | .other tag => tag

/-- `calculate_area_of_all_entities` (cnc.py lines 27-48): area of one
entity — the entity's own `area` attribute for LWPOLYLINE and POLYLINE,
`π·r²` for CIRCLE, the sector area `((end-start)/360)·π·r²` for ARC, and
`0.0` for every other type. -/
noncomputable def calculate_area_of_all_entities (entity : Entity) : ℝ :=
  match entity with
  | .lwpolyline _ a => a
  | .polyline _ a => a
  | .circle _ radius => Real.pi * radius ^ 2
  | .arc _ radius start_angle end_angle =>
      ((end_angle - start_angle) / 360) * (Real.pi * radius ^ 2)
  | _ => 0

/-- `calculate_total_area` (cnc.py lines 50-71): fold the per-entity area
over the entity sequence, starting from `0.0`. -/
noncomputable def calculate_total_area (entities : List Entity) : ℝ :=
  entities.foldl
    (fun total_area entity => total_area + calculate_area_of_all_entities entity) 0

/-- The initial census dictionary of `calculate_quantity_of_entities`
(cnc.py lines 84-93): the seven fixed keys, each mapped to 0, in insertion
order. -/
def initial_quantity : List (String × Nat) :=
  [("LINE", 0), ("LWPOLYLINE", 0), ("POLYLINE", 0), ("CIRCLE", 0),
   ("ARC", 0), ("TEXT", 0), ("MTEXT", 0)]

/-- One census step (cnc.py lines 102-103): `if entity_type in quantity:
quantity[entity_type] += 1`.  Incrementing the entry whose key matches, and
leaving the dictionary untouched otherwise, is exactly the guarded
increment: keys not already present are never inserted. -/
def incrementKey (quantity : List (String × Nat)) (key : String) :
    List (String × Nat) :=
  quantity.map (fun p => if p.1 == key then (p.1, p.2 + 1) else p)

/-- `calculate_quantity_of_entities` (cnc.py lines 73-105): fold the guarded
increment over the entity sequence, starting from the fixed-key dictionary. -/
def calculate_quantity_of_entities (entities : List Entity) :
    List (String × Nat) :=
  entities.foldl (fun quantity entity => incrementKey quantity entity.dxftype)
    initial_quantity

/-- Dictionary lookup, `quantity[key]` (defaulting to 0 for a missing key,
used only to state properties). -/
def lookupCount (quantity : List (String × Nat)) (key : String) : Nat :=
  match quantity.find? (fun p => p.1 == key) with
  | some p => p.2
  | none => 0

/-- One vertex step of the polyline bounds loop (cnc.py lines 133-135 /
178-180): feed the vertex's axis coordinate into the min and max trackers. -/
noncomputable def vertexStep (vc : Vertex → ℝ) (acc : EReal × EReal)
    (v : Vertex) : EReal × EReal :=
  (min acc.1 ((vc v : ℝ) : EReal), max acc.2 ((vc v : ℝ) : EReal))

/-- One extent-tracker update for one entity, parametric in the axis
accessors (`pc` reads the axis coordinate of a point, `vc` of a vertex).
This is the shared loop body of `calculate_object_thickness`
(cnc.py lines 126-143, with `pc = Point.y`, `vc = Vertex.y`) and
`calculate_object_width` (lines 171-188, with `pc = Point.x`,
`vc = Vertex.x`): LINE feeds both endpoints into min and max, LWPOLYLINE
and POLYLINE feed every vertex, CIRCLE and ARC feed `center ± radius`,
every other type leaves the tracker unchanged. -/
noncomputable def updateBounds (pc : Point → ℝ) (vc : Vertex → ℝ)
    (st : EReal × EReal) (entity : Entity) : EReal × EReal :=
  match entity with
  | .line s e =>
      (min st.1 (min ((pc s : ℝ) : EReal) ((pc e : ℝ) : EReal)),
       max st.2 (max ((pc s : ℝ) : EReal) ((pc e : ℝ) : EReal)))
  | .lwpolyline vs _ => vs.foldl (vertexStep vc) st
  | .polyline vs _ => vs.foldl (vertexStep vc) st
  | .circle c radius =>
      (min st.1 ((pc c - radius : ℝ) : EReal),
       max st.2 ((pc c + radius : ℝ) : EReal))
  | .arc c radius _ _ =>
      (min st.1 ((pc c - radius : ℝ) : EReal),
       max st.2 ((pc c + radius : ℝ) : EReal))
  | _ => st

/-- The Y-axis tracker update of `calculate_object_thickness`. -/
noncomputable def updateBoundsY : EReal × EReal → Entity → EReal × EReal :=
  updateBounds Point.y Vertex.y

/-- The X-axis tracker update of `calculate_object_width`. -/
noncomputable def updateBoundsX : EReal × EReal → Entity → EReal × EReal :=
  updateBounds Point.x Vertex.x

/-- The (min, max) Y-extent state after traversing the whole sequence,
starting from the sentinels `(+∞, -∞)` (cnc.py lines 118-119, 126-143). -/
noncomputable def boundsStateY (entities : List Entity) : EReal × EReal :=
  entities.foldl updateBoundsY (⊤, ⊥)

/-- The (min, max) X-extent state after traversing the whole sequence,
starting from the sentinels `(+∞, -∞)` (cnc.py lines 163-164, 171-188). -/
noncomputable def boundsStateX (entities : List Entity) : EReal × EReal :=
  entities.foldl updateBoundsX (⊤, ⊥)

open Classical in
/-- The shared tail of the two extent functions (cnc.py lines 145-150 and
190-195): if either tracker still holds its infinity sentinel, return
`0.0` ("no valid entities found"); otherwise return `max - min`. -/
noncomputable def boundsResult (st : EReal × EReal) : ℝ :=
  if st.1 = ⊤ ∨ st.2 = ⊥ then 0 else st.2.toReal - st.1.toReal

/-- `calculate_object_thickness` (cnc.py lines 107-150). -/
noncomputable def calculate_object_thickness (entities : List Entity) : ℝ :=
  boundsResult (boundsStateY entities)

/-- `calculate_object_width` (cnc.py lines 152-195). -/
noncomputable def calculate_object_width (entities : List Entity) : ℝ :=
  boundsResult (boundsStateX entities)

/-- Length contributed by one entity of the LINE pass (cnc.py lines
214-217): `start.distance(end)`, the Euclidean distance. -/
noncomputable def line_cut_length : Entity → ℝ
  | .line s e => Real.sqrt ((s.x - e.x) ^ 2 + (s.y - e.y) ^ 2)
  | _ => 0

/-- Length contributed by one entity of the POLYLINE pass (cnc.py lines
220-222): the sum of `segment.length` over the vertex traversal. -/
noncomputable def polyline_cut_length : Entity → ℝ
  | .polyline vs _ => (vs.map Vertex.length).sum
  | _ => 0

/-- Length contributed by one entity of the ARC pass (cnc.py lines
225-232): `radius * radians(end_angle - start_angle)`, with
`radians(a) = a * π / 180`; the signed angle difference is taken as given. -/
noncomputable def arc_cut_length : Entity → ℝ
  | .arc _ radius start_angle end_angle =>
      radius * ((end_angle - start_angle) * Real.pi / 180)
  | _ => 0

/-- Length contributed by one entity of the CIRCLE pass (cnc.py lines
235-239): the full circumference `2π·r`. -/
noncomputable def circle_cut_length : Entity → ℝ
  | .circle _ radius => 2 * Real.pi * radius
  | _ => 0

/-- `calculate_machine_cut_length` (cnc.py lines 197-242): four passes over
the model space, each `query`ing one DXF type (LINE, POLYLINE, ARC, CIRCLE —
note: not LWPOLYLINE) and summing its contributions into the running total. -/
noncomputable def calculate_machine_cut_length (entities : List Entity) : ℝ :=
  ((entities.filter (fun e => e.dxftype == "LINE")).map line_cut_length).sum
    + ((entities.filter (fun e => e.dxftype == "POLYLINE")).map
        polyline_cut_length).sum
    + ((entities.filter (fun e => e.dxftype == "ARC")).map arc_cut_length).sum
    + ((entities.filter (fun e => e.dxftype == "CIRCLE")).map
        circle_cut_length).sum

/-- The unused `weight_per_meter` constant of `calculate_weight`
(cnc.py line 255); it never enters the computed weight. -/
noncomputable def weight_per_meter : ℝ := 2.5

/-- `calculate_weight` (cnc.py lines 244-260): the plain product
`cut_length * width * thickness`; no density constant is applied. -/
noncomputable def calculate_weight (cut_length width thickness : ℝ) : ℝ :=
  cut_length * width * thickness

/-- The weight computation at the call site in `main` (cnc.py line 288):
the cut length is scaled by 1000 (meters to millimeters) before the call. -/
noncomputable def main_weight (cut_length width thickness : ℝ) : ℝ :=
  calculate_weight (cut_length * 1000) width thickness

/-- Data-model well-formedness (spec §3: a radius is non-negative): the
radius attribute of a CIRCLE or ARC entity is `≥ 0`; every other entity is
unconditionally well-formed. -/
def WFEntity : Entity → Prop
  | .circle _ radius => 0 ≤ radius
  | .arc _ radius _ _ => 0 ≤ radius
  | _ => True

/-- An entity that actually feeds at least one coordinate into the extent
trackers: a LINE, CIRCLE or ARC, or an LWPOLYLINE/POLYLINE with at least
one vertex. -/
def contributesCoord : Entity → Prop
  | .line _ _ => True
  | .lwpolyline vs _ => vs ≠ []
  | .polyline vs _ => vs ≠ []
  | .circle _ _ => True
  | .arc _ _ _ _ => True
  | _ => False

/-! Helper lemmas. -/

/-- Folding addition of `f` starting from `a` equals `a` plus the sum of
the mapped list. -/
theorem foldl_add_eq_sum (f : Entity → ℝ) (es : List Entity) (a : ℝ) :
    es.foldl (fun t e => t + f e) a = a + (es.map f).sum := by
  induction es generalizing a with
  | nil => simp
  | cons e es ih => simp [ih, add_assoc]

/-- The total area is the sum of the per-entity areas. -/
theorem total_area_eq_sum (es : List Entity) :
    calculate_total_area es = (es.map calculate_area_of_all_entities).sum := by
  rw [calculate_total_area, foldl_add_eq_sum, zero_add]

/-! Claim theorems. -/

/-- Claim C1: the weight is exactly `cut_length_scaled * width * thickness`,
where the call site scales the cut length by 1000 (meters to millimeters)
before the call; no density or weight-per-meter constant enters the result,
and the equality is exact. -/
theorem weight_is_plain_product (cut_length width thickness : ℝ) :
    calculate_weight cut_length width thickness
        = cut_length * width * thickness ∧
      main_weight cut_length width thickness
        = (cut_length * 1000) * width * thickness :=
  ⟨rfl, rfl⟩

/-- Claim C2: the per-entity area function returns the entity's own
enclosed-area value for LwPolyline and Polyline, `π·r²` for a Circle, the
sector area `((end_angle - start_angle)/360)·π·r²` for an Arc with the
angle difference taken as given, and `0.0` for Line, Text, MText and any
unrecognized type. -/
theorem area_per_entity_cases (vs : List Vertex) (a : ℝ) (c : Point)
    (r sa ea : ℝ) (s p : Point) (tag : String) :
    calculate_area_of_all_entities (.lwpolyline vs a) = a ∧
      calculate_area_of_all_entities (.polyline vs a) = a ∧
      calculate_area_of_all_entities (.circle c r) = Real.pi * r ^ 2 ∧
      calculate_area_of_all_entities (.arc c r sa ea)
        = ((ea - sa) / 360) * Real.pi * r ^ 2 ∧
      calculate_area_of_all_entities (.line s p) = 0 ∧
      calculate_area_of_all_entities .text = 0 ∧
      calculate_area_of_all_entities .mtext = 0 ∧
      calculate_area_of_all_entities (.other tag) = 0 := by
  refine ⟨rfl, rfl, rfl, ?_, rfl, rfl, rfl, rfl⟩
  show ((ea - sa) / 360) * (Real.pi * r ^ 2) = _
  ring

/-- Claim C7: total area is invariant under reversing the entity sequence. -/
theorem total_area_reverse_invariant (es : List Entity) :
    calculate_total_area es = calculate_total_area es.reverse := by
  rw [total_area_eq_sum, total_area_eq_sum, List.map_reverse, List.sum_reverse]

/-- The cut length of a concatenation splits into the two parts' cut
lengths (each of the four type passes filters and sums pointwise). -/
theorem cut_length_append (es fs : List Entity) :
    calculate_machine_cut_length (es ++ fs)
      = calculate_machine_cut_length es + calculate_machine_cut_length fs := by
  simp only [calculate_machine_cut_length, List.filter_append, List.map_append,
    List.sum_append]
  ring

/-- The cut length of a single entity is the sum of its four per-pass
contributions (all but at most one of which are `0`). -/
theorem cut_length_singleton (e : Entity) :
    calculate_machine_cut_length [e]
      = line_cut_length e + polyline_cut_length e + arc_cut_length e
          + circle_cut_length e := by
  simp only [calculate_machine_cut_length, List.filter_singleton]
  cases e <;>
    simp [Entity.dxftype, line_cut_length, polyline_cut_length, arc_cut_length,
      circle_cut_length, Bool.cond_eq_ite, apply_ite List.sum,
      apply_ite (List.map line_cut_length),
      apply_ite (List.map polyline_cut_length),
      apply_ite (List.map arc_cut_length), apply_ite (List.map circle_cut_length)]

/-- Claim C3 counterexample: the claim says every arc contributes the
non-negative value `radius * |Δangle_in_radians|`; but the arc of radius 1
from `start_angle = 180` to `end_angle = 0` contributes
`1 * ((0 - 180)·π/180) = -π`, which differs from `1 * |(0 - 180)·π/180| = π`. -/
theorem arc_cut_length_abs_counterexample :
    calculate_machine_cut_length [.arc ⟨0, 0⟩ 1 180 0]
      ≠ 1 * |((0 : ℝ) - 180) * Real.pi / 180| := by
  rw [cut_length_singleton]
  simp only [line_cut_length, polyline_cut_length, arc_cut_length,
    circle_cut_length]
  have h1 : ((0 : ℝ) - 180) * Real.pi / 180 = -Real.pi := by ring
  rw [h1, abs_neg, abs_of_pos Real.pi_pos]
  intro h
  nlinarith [Real.pi_pos]

/-- Claim C3 (amended): an Arc entity contributes the signed value
`radius * ((end_angle - start_angle)·π/180)` to the total cut length — the
degree difference converted to radians and taken as given, with no
absolute value, so the contribution is negative when
`end_angle < start_angle`. -/
theorem arc_cut_length_signed (es : List Entity) (c : Point) (r sa ea : ℝ) :
    calculate_machine_cut_length (es ++ [.arc c r sa ea])
      = calculate_machine_cut_length es
          + r * ((ea - sa) * Real.pi / 180) := by
  rw [cut_length_append, cut_length_singleton]
  simp [line_cut_length, polyline_cut_length, arc_cut_length, circle_cut_length]

/-- Claim C5: the cut length takes contributions only from Line, Polyline,
Arc and Circle entities: an appended LwPolyline changes nothing (despite
being treated uniformly with Polyline by the area and bounds passes), an
appended Polyline adds the sum of the `length` attributes of its vertex
traversal, and Text, MText and unrecognized entities change nothing. -/
theorem cut_length_contributions (es : List Entity) (vs : List Vertex)
    (a : ℝ) (tag : String) :
    calculate_machine_cut_length (es ++ [.lwpolyline vs a])
        = calculate_machine_cut_length es ∧
      calculate_machine_cut_length (es ++ [.polyline vs a])
        = calculate_machine_cut_length es + (vs.map Vertex.length).sum ∧
      calculate_machine_cut_length (es ++ [.text])
        = calculate_machine_cut_length es ∧
      calculate_machine_cut_length (es ++ [.mtext])
        = calculate_machine_cut_length es ∧
      calculate_machine_cut_length (es ++ [.other tag])
        = calculate_machine_cut_length es := by
  refine ⟨?_, ?_, ?_, ?_, ?_⟩ <;>
    rw [cut_length_append, cut_length_singleton] <;>
    simp [line_cut_length, polyline_cut_length, arc_cut_length,
      circle_cut_length]

/-- Claim C4: on the empty entity sequence the total area, cut length,
width and thickness are each exactly `0.0` (not infinity, not an error)
and the census maps each of the seven fixed keys to 0; moreover whenever
an axis tracker still holds the initial `(+∞, -∞)` sentinel pair after the
traversal, the sentinel comparison returns `0.0` for that axis before any
max − min difference is computed. -/
theorem empty_sequence_metrics :
    calculate_total_area [] = 0 ∧
      calculate_machine_cut_length [] = 0 ∧
      calculate_object_width [] = 0 ∧
      calculate_object_thickness [] = 0 ∧
      calculate_quantity_of_entities []
        = [("LINE", 0), ("LWPOLYLINE", 0), ("POLYLINE", 0), ("CIRCLE", 0),
           ("ARC", 0), ("TEXT", 0), ("MTEXT", 0)] ∧
      (∀ es : List Entity, boundsStateX es = (⊤, ⊥) →
        calculate_object_width es = 0) ∧
      (∀ es : List Entity, boundsStateY es = (⊤, ⊥) →
        calculate_object_thickness es = 0) := by
  refine ⟨rfl, by simp [calculate_machine_cut_length], ?_, ?_, rfl, ?_, ?_⟩
  · simp [calculate_object_width, boundsStateX, boundsResult]
  · simp [calculate_object_thickness, boundsStateY, boundsResult]
  · intro es h
    simp [calculate_object_width, h, boundsResult]
  · intro es h
    simp [calculate_object_thickness, h, boundsResult]

/-- Witness for claim C4: the sentinel-comparison implications applied at
the concrete empty sequence, whose tracker state is the sentinel pair. -/
theorem empty_sequence_metrics_witness :
    calculate_object_width [] = 0 ∧ calculate_object_thickness [] = 0 :=
  ⟨empty_sequence_metrics.2.2.2.2.2.1 [] rfl,
   empty_sequence_metrics.2.2.2.2.2.2 [] rfl⟩

/-- Claim C10: an arc whose end angle equals its start angle contributes
zero area and zero cut length, but still contributes `center ± radius` to
both axes' bounds, so a drawing consisting of only that arc has total area
`0.0`, cut length `0.0`, and width and thickness both `2·radius`. -/
theorem degenerate_arc_metrics (c : Point) (r a : ℝ) :
    calculate_area_of_all_entities (.arc c r a a) = 0 ∧
      calculate_total_area [.arc c r a a] = 0 ∧
      calculate_machine_cut_length [.arc c r a a] = 0 ∧
      calculate_object_width [.arc c r a a] = 2 * r ∧
      calculate_object_thickness [.arc c r a a] = 2 * r := by
  have harea : calculate_area_of_all_entities (.arc c r a a) = 0 := by
    show ((a - a) / 360) * (Real.pi * r ^ 2) = 0
    ring
  refine ⟨harea, ?_, ?_, ?_, ?_⟩
  · rw [total_area_eq_sum]
    simp [harea]
  · rw [cut_length_singleton]
    simp [line_cut_length, polyline_cut_length, arc_cut_length,
      circle_cut_length]
  · have hst : boundsStateX [.arc c r a a]
        = (((c.x - r : ℝ) : EReal), ((c.x + r : ℝ) : EReal)) := by
      simp [boundsStateX, updateBoundsX, updateBounds]
    rw [calculate_object_width, hst, boundsResult]
    rw [if_neg (not_or.mpr ⟨EReal.coe_ne_top _, EReal.coe_ne_bot _⟩)]
    simp only [EReal.toReal_coe]
    ring
  · have hst : boundsStateY [.arc c r a a]
        = (((c.y - r : ℝ) : EReal), ((c.y + r : ℝ) : EReal)) := by
      simp [boundsStateY, updateBoundsY, updateBounds]
    rw [calculate_object_thickness, hst, boundsResult]
    rw [if_neg (not_or.mpr ⟨EReal.coe_ne_top _, EReal.coe_ne_bot _⟩)]
    simp only [EReal.toReal_coe]
    ring

/-- The number of entities in `es` whose DXF type tag is `key`. -/
def countType (es : List Entity) (key : String) : Nat :=
  (es.filter (fun e => e.dxftype == key)).length

/-- Whether an entity is a Line primitive. -/
def Entity.isLine : Entity → Bool
  | .line _ _ => true
  | _ => false

/-- Whether an entity is a Circle primitive. -/
def Entity.isCircle : Entity → Bool
  | .circle _ _ => true
  | _ => false

/-- Folding the guarded census increment over `es` from any dictionary `d`
adds, entrywise, the number of entities whose tag equals that entry's key. -/
theorem census_foldl (es : List Entity) (d : List (String × Nat)) :
    es.foldl (fun q e => incrementKey q e.dxftype) d
      = d.map (fun p => (p.1, p.2 + countType es p.1)) := by
  induction es generalizing d with
  | nil => simp [countType]
  | cons e es ih =>
      rw [List.foldl_cons, ih]
      unfold incrementKey
      rw [List.map_map]
      congr 1
      funext p
      simp only [Function.comp_apply]
      by_cases h : p.1 = e.dxftype
      · simp [h, countType, List.filter_cons]
        omega
      · simp [h, countType, List.filter_cons, Ne.symm h]

/-- The census of any entity sequence: each of the seven fixed keys, in
order, paired with the number of entities carrying that tag. -/
theorem census_spec (es : List Entity) :
    calculate_quantity_of_entities es
      = [("LINE", countType es "LINE"),
         ("LWPOLYLINE", countType es "LWPOLYLINE"),
         ("POLYLINE", countType es "POLYLINE"),
         ("CIRCLE", countType es "CIRCLE"),
         ("ARC", countType es "ARC"),
         ("TEXT", countType es "TEXT"),
         ("MTEXT", countType es "MTEXT")] := by
  rw [calculate_quantity_of_entities, census_foldl]
  simp [initial_quantity]

/-- Claim C6: for a sequence of Line and Circle entities only, in any
interleaving order, the census maps "LINE" to the number of Line entities,
"CIRCLE" to the number of Circle entities, and the other five fixed keys
to 0; and appending an entity whose type tag is not among the seven fixed
keys leaves the census unchanged — unrecognized types are silently
excluded and never added as new keys. -/
theorem census_line_circle_counts (es : List Entity)
    (hlc : ∀ e ∈ es, e.isLine = true ∨ e.isCircle = true) :
    calculate_quantity_of_entities es
        = [("LINE", (es.filter Entity.isLine).length), ("LWPOLYLINE", 0),
           ("POLYLINE", 0), ("CIRCLE", (es.filter Entity.isCircle).length),
           ("ARC", 0), ("TEXT", 0), ("MTEXT", 0)] ∧
      ∀ (fs : List Entity) (e : Entity),
        (∀ k ∈ initial_quantity.map Prod.fst, e.dxftype ≠ k) →
        calculate_quantity_of_entities (fs ++ [e])
          = calculate_quantity_of_entities fs := by
  constructor
  · rw [census_spec]
    have hline : countType es "LINE" = (es.filter Entity.isLine).length := by
      rw [countType]
      congr 1
      refine List.filter_congr ?_
      intro e he
      rcases hlc e he with h | h <;> cases e <;>
        simp_all [Entity.isLine, Entity.isCircle, Entity.dxftype]
    have hcircle : countType es "CIRCLE"
        = (es.filter Entity.isCircle).length := by
      rw [countType]
      congr 1
      refine List.filter_congr ?_
      intro e he
      rcases hlc e he with h | h <;> cases e <;>
        simp_all [Entity.isLine, Entity.isCircle, Entity.dxftype]
    have hzero : ∀ k, k ≠ "LINE" → k ≠ "CIRCLE" → countType es k = 0 := by
      intro k hk1 hk2
      rw [countType, List.length_eq_zero]
      refine List.filter_eq_nil_iff.mpr ?_
      intro e he
      rcases hlc e he with h | h <;> cases e <;>
        simp_all [Entity.isLine, Entity.isCircle, Entity.dxftype] <;>
        simp [Ne.symm hk1, Ne.symm hk2]
    simp [hline, hcircle, hzero]
  · intro fs e hk
    rw [census_spec, census_spec]
    have hcount : ∀ k, k ∈ initial_quantity.map Prod.fst →
        countType (fs ++ [e]) k = countType fs k := by
      intro k hkmem
      rw [countType, countType, List.filter_append]
      have : [e].filter (fun x => x.dxftype == k) = [] := by
        simp [hk k hkmem]
      simp [this]
    simp only [hcount "LINE" (by simp [initial_quantity]),
      hcount "LWPOLYLINE" (by simp [initial_quantity]),
      hcount "POLYLINE" (by simp [initial_quantity]),
      hcount "CIRCLE" (by simp [initial_quantity]),
      hcount "ARC" (by simp [initial_quantity]),
      hcount "TEXT" (by simp [initial_quantity]),
      hcount "MTEXT" (by simp [initial_quantity])]

/-- Witness for claim C6: a concrete interleaving of two lines and one
circle yields census counts LINE = 2, CIRCLE = 1, all other keys 0, and
appending an unrecognized ELLIPSE entity to the empty sequence leaves the
census unchanged. -/
theorem census_line_circle_counts_witness :
    calculate_quantity_of_entities
        [.line ⟨0, 0⟩ ⟨1, 0⟩, .circle ⟨0, 0⟩ 1, .line ⟨2, 2⟩ ⟨3, 3⟩]
      = [("LINE", 2), ("LWPOLYLINE", 0), ("POLYLINE", 0), ("CIRCLE", 1),
         ("ARC", 0), ("TEXT", 0), ("MTEXT", 0)] ∧
    calculate_quantity_of_entities ([] ++ [.other "ELLIPSE"])
      = calculate_quantity_of_entities [] := by
  have h := census_line_circle_counts
    [.line ⟨0, 0⟩ ⟨1, 0⟩, .circle ⟨0, 0⟩ 1, .line ⟨2, 2⟩ ⟨3, 3⟩]
    (by intro e he
        simp only [List.mem_cons, List.not_mem_nil, or_false] at he
        rcases he with rfl | rfl | rfl <;> simp [Entity.isLine, Entity.isCircle])
  refine ⟨?_, h.2 [] (.other "ELLIPSE") (by simp [initial_quantity, Entity.dxftype])⟩
  rw [h.1]
  rfl

/-! Invariant lemmas for the extent trackers.  Throughout, a tracker state
is a pair `(min, max)` in `EReal × EReal`; the initial state is `(⊤, ⊥)`. -/

/-- A minimum of two extended reals distinct from `⊥` is distinct from `⊥`. -/
theorem min_ne_bot (a b : EReal) (ha : a ≠ ⊥) (hb : b ≠ ⊥) : min a b ≠ ⊥ := by
  rw [← bot_lt_iff_ne_bot] at ha hb ⊢
  exact lt_min ha hb

/-- A maximum of two extended reals distinct from `⊤` is distinct from `⊤`. -/
theorem max_ne_top (a b : EReal) (ha : a ≠ ⊤) (hb : b ≠ ⊤) : max a b ≠ ⊤ := by
  rw [← lt_top_iff_ne_top] at ha hb ⊢
  exact max_lt ha hb

/-- The vertex loop only lowers the min tracker. -/
theorem vfold_fst_le (vc : Vertex → ℝ) (vs : List Vertex) (st : EReal × EReal) :
    (vs.foldl (vertexStep vc) st).1 ≤ st.1 := by
  induction vs generalizing st with
  | nil => exact le_refl _
  | cons v vs ih => exact le_trans (ih _) (min_le_left _ _)

/-- The vertex loop only raises the max tracker. -/
theorem vfold_snd_ge (vc : Vertex → ℝ) (vs : List Vertex) (st : EReal × EReal) :
    st.2 ≤ (vs.foldl (vertexStep vc) st).2 := by
  induction vs generalizing st with
  | nil => exact le_refl _
  | cons v vs ih =>
      refine le_trans ?_ (ih (vertexStep vc st v))
      exact le_max_left _ _

/-- The vertex loop keeps the min tracker above `⊥` (every fed value is a
finite coordinate). -/
theorem vfold_fst_ne_bot (vc : Vertex → ℝ) (vs : List Vertex)
    (st : EReal × EReal) (h : st.1 ≠ ⊥) :
    (vs.foldl (vertexStep vc) st).1 ≠ ⊥ := by
  induction vs generalizing st with
  | nil => exact h
  | cons v vs ih =>
      refine ih _ ?_
      exact min_ne_bot _ _ h (EReal.coe_ne_bot _)

/-- The vertex loop keeps the max tracker below `⊤`. -/
theorem vfold_snd_ne_top (vc : Vertex → ℝ) (vs : List Vertex)
    (st : EReal × EReal) (h : st.2 ≠ ⊤) :
    (vs.foldl (vertexStep vc) st).2 ≠ ⊤ := by
  induction vs generalizing st with
  | nil => exact h
  | cons v vs ih =>
      refine ih _ ?_
      exact max_ne_top _ _ h (EReal.coe_ne_top _)

/-- After a nonempty vertex loop the min tracker is no longer the `⊤`
sentinel. -/
theorem vfold_fst_ne_top (vc : Vertex → ℝ) (vs : List Vertex)
    (st : EReal × EReal) (h : vs ≠ []) :
    (vs.foldl (vertexStep vc) st).1 ≠ ⊤ := by
  cases vs with
  | nil => exact absurd rfl h
  | cons v vs =>
      have h1 : (vs.foldl (vertexStep vc) (vertexStep vc st v)).1
          ≤ ((vc v : ℝ) : EReal) :=
        le_trans (vfold_fst_le vc vs _) (min_le_right _ _)
      exact ne_top_of_le_ne_top (EReal.coe_ne_top _) h1

/-- After a nonempty vertex loop the max tracker is no longer the `⊥`
sentinel. -/
theorem vfold_snd_ne_bot (vc : Vertex → ℝ) (vs : List Vertex)
    (st : EReal × EReal) (h : vs ≠ []) :
    (vs.foldl (vertexStep vc) st).2 ≠ ⊥ := by
  cases vs with
  | nil => exact absurd rfl h
  | cons v vs =>
      have h1 : ((vc v : ℝ) : EReal) ≤ (vertexStep vc st v).2 :=
        le_max_right _ _
      have h2 := vfold_snd_ge vc vs (vertexStep vc st v)
      exact ne_bot_of_le_ne_bot (EReal.coe_ne_bot _) (le_trans h1 h2)

/-- Lowering the min by a value `a` and raising the max by a value `b`
with `a ≤ b` preserves the ordering invariant "if the min tracker has left
its sentinel then min ≤ max". -/
theorem min_max_step_order (x y a b : EReal) (hab : a ≤ b)
    (hO : x ≠ ⊤ → x ≤ y) (h : min x a ≠ ⊤) : min x a ≤ max y b := by
  rcases le_total x a with hxa | hax
  · rw [min_eq_left hxa] at h ⊢
    exact le_trans (hO h) (le_max_left _ _)
  · rw [min_eq_right hax]
    exact le_trans hab (le_max_right _ _)

/-- The vertex loop preserves the ordering invariant. -/
theorem vfold_order (vc : Vertex → ℝ) (vs : List Vertex) (st : EReal × EReal)
    (hO : st.1 ≠ ⊤ → st.1 ≤ st.2) :
    (vs.foldl (vertexStep vc) st).1 ≠ ⊤ →
      (vs.foldl (vertexStep vc) st).1 ≤ (vs.foldl (vertexStep vc) st).2 := by
  induction vs generalizing st with
  | nil => exact hO
  | cons v vs ih =>
      refine ih _ ?_
      exact min_max_step_order st.1 st.2 _ _ (le_refl _) hO

/-- One entity update only lowers the min tracker. -/
theorem update_fst_le (pc : Point → ℝ) (vc : Vertex → ℝ)
    (st : EReal × EReal) (e : Entity) :
    (updateBounds pc vc st e).1 ≤ st.1 := by
  cases e with
  | line s p => exact min_le_left _ _
  | lwpolyline vs a => exact vfold_fst_le vc vs st
  | polyline vs a => exact vfold_fst_le vc vs st
  | circle c r => exact min_le_left _ _
  | arc c r sa ea => exact min_le_left _ _
  | text => exact le_refl _
  | mtext => exact le_refl _
  | other tag => exact le_refl _

/-- One entity update only raises the max tracker. -/
theorem update_snd_ge (pc : Point → ℝ) (vc : Vertex → ℝ)
    (st : EReal × EReal) (e : Entity) :
    st.2 ≤ (updateBounds pc vc st e).2 := by
  cases e with
  | line s p => exact le_max_left _ _
  | lwpolyline vs a => exact vfold_snd_ge vc vs st
  | polyline vs a => exact vfold_snd_ge vc vs st
  | circle c r => exact le_max_left _ _
  | arc c r sa ea => exact le_max_left _ _
  | text => exact le_refl _
  | mtext => exact le_refl _
  | other tag => exact le_refl _

/-- One entity update keeps the min tracker above `⊥`. -/
theorem update_fst_ne_bot (pc : Point → ℝ) (vc : Vertex → ℝ)
    (st : EReal × EReal) (e : Entity) (h : st.1 ≠ ⊥) :
    (updateBounds pc vc st e).1 ≠ ⊥ := by
  cases e with
  | line s p =>
      exact min_ne_bot _ _ h
        (min_ne_bot _ _ (EReal.coe_ne_bot _) (EReal.coe_ne_bot _))
  | lwpolyline vs a => exact vfold_fst_ne_bot vc vs st h
  | polyline vs a => exact vfold_fst_ne_bot vc vs st h
  | circle c r => exact min_ne_bot _ _ h (EReal.coe_ne_bot _)
  | arc c r sa ea => exact min_ne_bot _ _ h (EReal.coe_ne_bot _)
  | text => exact h
  | mtext => exact h
  | other tag => exact h

/-- One entity update keeps the max tracker below `⊤`. -/
theorem update_snd_ne_top (pc : Point → ℝ) (vc : Vertex → ℝ)
    (st : EReal × EReal) (e : Entity) (h : st.2 ≠ ⊤) :
    (updateBounds pc vc st e).2 ≠ ⊤ := by
  cases e with
  | line s p =>
      exact max_ne_top _ _ h
        (max_ne_top _ _ (EReal.coe_ne_top _) (EReal.coe_ne_top _))
  | lwpolyline vs a => exact vfold_snd_ne_top vc vs st h
  | polyline vs a => exact vfold_snd_ne_top vc vs st h
  | circle c r => exact max_ne_top _ _ h (EReal.coe_ne_top _)
  | arc c r sa ea => exact max_ne_top _ _ h (EReal.coe_ne_top _)
  | text => exact h
  | mtext => exact h
  | other tag => exact h

/-- One entity update of a well-formed entity preserves the ordering
invariant "if the min tracker has left its sentinel then min ≤ max". -/
theorem update_order (pc : Point → ℝ) (vc : Vertex → ℝ)
    (st : EReal × EReal) (e : Entity) (hwf : WFEntity e)
    (hO : st.1 ≠ ⊤ → st.1 ≤ st.2) :
    (updateBounds pc vc st e).1 ≠ ⊤ →
      (updateBounds pc vc st e).1 ≤ (updateBounds pc vc st e).2 := by
  cases e with
  | line s p =>
      exact min_max_step_order st.1 st.2 _ _ (min_le_max) hO
  | lwpolyline vs a => exact vfold_order vc vs st hO
  | polyline vs a => exact vfold_order vc vs st hO
  | circle c r =>
      refine min_max_step_order st.1 st.2 _ _ ?_ hO
      have hr : (0 : ℝ) ≤ r := hwf
      exact EReal.coe_le_coe_iff.mpr (by linarith)
  | arc c r sa ea =>
      refine min_max_step_order st.1 st.2 _ _ ?_ hO
      have hr : (0 : ℝ) ≤ r := hwf
      exact EReal.coe_le_coe_iff.mpr (by linarith)
  | text => exact hO
  | mtext => exact hO
  | other tag => exact hO

/-- One entity update of a coordinate-contributing entity takes the min
tracker off the `⊤` sentinel. -/
theorem update_contrib_fst_ne_top (pc : Point → ℝ) (vc : Vertex → ℝ)
    (st : EReal × EReal) (e : Entity) (hc : contributesCoord e) :
    (updateBounds pc vc st e).1 ≠ ⊤ := by
  cases e with
  | line s p =>
      exact ne_top_of_le_ne_top (EReal.coe_ne_top _)
        (le_trans (min_le_right _ _) (min_le_left _ _))
  | lwpolyline vs a => exact vfold_fst_ne_top vc vs st hc
  | polyline vs a => exact vfold_fst_ne_top vc vs st hc
  | circle c r => exact ne_top_of_le_ne_top (EReal.coe_ne_top _) (min_le_right _ _)
  | arc c r sa ea =>
      exact ne_top_of_le_ne_top (EReal.coe_ne_top _) (min_le_right _ _)
  | text => exact absurd hc not_false
  | mtext => exact absurd hc not_false
  | other tag => exact absurd hc not_false

/-- One entity update preserves the linkage between the two sentinels: the
min tracker is still `⊤` exactly when the max tracker is still `⊥` (an
update feeds either both trackers or neither). -/
theorem update_link (pc : Point → ℝ) (vc : Vertex → ℝ)
    (st : EReal × EReal) (e : Entity)
    (h : st.1 = ⊤ ↔ st.2 = ⊥) :
    (updateBounds pc vc st e).1 = ⊤ ↔ (updateBounds pc vc st e).2 = ⊥ := by
  cases e with
  | line s p =>
      constructor
      · intro hh
        exact absurd hh (ne_top_of_le_ne_top (EReal.coe_ne_top _)
          (le_trans (min_le_right _ _) (min_le_left _ _)))
      · intro hh
        exact absurd hh (ne_bot_of_le_ne_bot (EReal.coe_ne_bot _)
          (le_trans (le_max_left _ _) (le_max_right _ _)))
  | lwpolyline vs a =>
      cases vs with
      | nil => exact h
      | cons v vs =>
          constructor
          · intro hh
            exact absurd hh (vfold_fst_ne_top vc (v :: vs) st (by simp))
          · intro hh
            exact absurd hh (vfold_snd_ne_bot vc (v :: vs) st (by simp))
  | polyline vs a =>
      cases vs with
      | nil => exact h
      | cons v vs =>
          constructor
          · intro hh
            exact absurd hh (vfold_fst_ne_top vc (v :: vs) st (by simp))
          · intro hh
            exact absurd hh (vfold_snd_ne_bot vc (v :: vs) st (by simp))
  | circle c r =>
      constructor
      · intro hh
        exact absurd hh (ne_top_of_le_ne_top (EReal.coe_ne_top _)
          (min_le_right _ _))
      · intro hh
        exact absurd hh (ne_bot_of_le_ne_bot (EReal.coe_ne_bot _)
          (le_max_right _ _))
  | arc c r sa ea =>
      constructor
      · intro hh
        exact absurd hh (ne_top_of_le_ne_top (EReal.coe_ne_top _)
          (min_le_right _ _))
      · intro hh
        exact absurd hh (ne_bot_of_le_ne_bot (EReal.coe_ne_bot _)
          (le_max_right _ _))
  | text => exact h
  | mtext => exact h
  | other tag => exact h

/-- The whole traversal only lowers the min tracker. -/
theorem foldl_fst_le (pc : Point → ℝ) (vc : Vertex → ℝ) (es : List Entity)
    (st : EReal × EReal) :
    (es.foldl (updateBounds pc vc) st).1 ≤ st.1 := by
  induction es generalizing st with
  | nil => exact le_refl _
  | cons e es ih => exact le_trans (ih _) (update_fst_le pc vc st e)

/-- The whole traversal only raises the max tracker. -/
theorem foldl_snd_ge (pc : Point → ℝ) (vc : Vertex → ℝ) (es : List Entity)
    (st : EReal × EReal) :
    st.2 ≤ (es.foldl (updateBounds pc vc) st).2 := by
  induction es generalizing st with
  | nil => exact le_refl _
  | cons e es ih =>
      refine le_trans ?_ (ih (updateBounds pc vc st e))
      exact update_snd_ge pc vc st e

/-- The whole traversal keeps the min tracker above `⊥`. -/
theorem foldl_fst_ne_bot (pc : Point → ℝ) (vc : Vertex → ℝ) (es : List Entity)
    (st : EReal × EReal) (h : st.1 ≠ ⊥) :
    (es.foldl (updateBounds pc vc) st).1 ≠ ⊥ := by
  induction es generalizing st with
  | nil => exact h
  | cons e es ih => exact ih _ (update_fst_ne_bot pc vc st e h)

/-- The whole traversal keeps the max tracker below `⊤`. -/
theorem foldl_snd_ne_top (pc : Point → ℝ) (vc : Vertex → ℝ) (es : List Entity)
    (st : EReal × EReal) (h : st.2 ≠ ⊤) :
    (es.foldl (updateBounds pc vc) st).2 ≠ ⊤ := by
  induction es generalizing st with
  | nil => exact h
  | cons e es ih => exact ih _ (update_snd_ne_top pc vc st e h)

/-- The whole traversal preserves the sentinel linkage. -/
theorem foldl_link (pc : Point → ℝ) (vc : Vertex → ℝ) (es : List Entity)
    (st : EReal × EReal) (h : st.1 = ⊤ ↔ st.2 = ⊥) :
    (es.foldl (updateBounds pc vc) st).1 = ⊤
      ↔ (es.foldl (updateBounds pc vc) st).2 = ⊥ := by
  induction es generalizing st with
  | nil => exact h
  | cons e es ih => exact ih _ (update_link pc vc st e h)

/-- The whole traversal of well-formed entities preserves the ordering
invariant. -/
theorem foldl_order (pc : Point → ℝ) (vc : Vertex → ℝ) (es : List Entity)
    (st : EReal × EReal) (hwf : ∀ e ∈ es, WFEntity e)
    (hO : st.1 ≠ ⊤ → st.1 ≤ st.2) :
    (es.foldl (updateBounds pc vc) st).1 ≠ ⊤ →
      (es.foldl (updateBounds pc vc) st).1
        ≤ (es.foldl (updateBounds pc vc) st).2 := by
  induction es generalizing st with
  | nil => exact hO
  | cons e es ih =>
      refine ih _ (fun f hf => hwf f (List.mem_cons_of_mem e hf)) ?_
      exact update_order pc vc st e (hwf e (List.mem_cons_self e es)) hO

/-- Once some entity of the traversal has contributed a coordinate, the
min tracker has left the `⊤` sentinel for good. -/
theorem foldl_contrib_fst_ne_top (pc : Point → ℝ) (vc : Vertex → ℝ)
    (es : List Entity) (st : EReal × EReal)
    (hex : ∃ e ∈ es, contributesCoord e) :
    (es.foldl (updateBounds pc vc) st).1 ≠ ⊤ := by
  induction es generalizing st with
  | nil =>
      rcases hex with ⟨e, he, _⟩
      exact absurd he (List.not_mem_nil e)
  | cons f es ih =>
      rcases hex with ⟨e, he, hc⟩
      rcases List.mem_cons.mp he with rfl | hmem
      · have h1 := update_contrib_fst_ne_top pc vc st e hc
        have h2 := foldl_fst_le pc vc es (updateBounds pc vc st e)
        exact ne_top_of_le_ne_top h1 h2
      · exact ih _ ⟨e, hmem, hc⟩

/-- From the tracker invariants, the extent result is non-negative. -/
theorem boundsResult_nonneg (st : EReal × EReal) (h1 : st.1 ≠ ⊥)
    (h2 : st.2 ≠ ⊤) (h3 : st.1 ≠ ⊤ → st.1 ≤ st.2) :
    0 ≤ boundsResult st := by
  rw [boundsResult]
  split_ifs with hg
  · exact le_refl 0
  · push_neg at hg
    have h4 := EReal.toReal_le_toReal (h3 hg.1) h1 h2
    linarith

/-- Unfolding lemma for `boundsStateX`. -/
theorem boundsStateX_def (es : List Entity) :
    boundsStateX es = es.foldl (updateBounds Point.x Vertex.x) (⊤, ⊥) := rfl

/-- Unfolding lemma for `boundsStateY`. -/
theorem boundsStateY_def (es : List Entity) :
    boundsStateY es = es.foldl (updateBounds Point.y Vertex.y) (⊤, ⊥) := rfl

/-- Claim C8 counterexample: an LwPolyline with an empty vertex list is an
entity of one of the five contributing types, yet after observing it the
Y-axis tracker still holds the initial sentinels and the claimed invariant
min ≤ max fails, since `⊤ ≤ ⊥` is false in `EReal`. -/
theorem bounds_claim_counterexample :
    (Entity.lwpolyline [] 0).dxftype
        ∈ ["LINE", "LWPOLYLINE", "POLYLINE", "CIRCLE", "ARC"] ∧
      ¬ (boundsStateY [Entity.lwpolyline [] 0]).1
          ≤ (boundsStateY [Entity.lwpolyline [] 0]).2 := by
  constructor
  · simp [Entity.dxftype]
  · have hst : boundsStateY [Entity.lwpolyline [] 0] = (⊤, ⊥) := rfl
    rw [hst]
    exact not_le.mpr bot_lt_top

/-- Claim C8 (amended): for a sequence of well-formed entities (circle and
arc radii non-negative, per the data model), each axis's (min, max)
tracker satisfies min ≤ max once at least one entity has actually
contributed a coordinate — a Line, Circle or Arc, or a polyline variant
with a nonempty vertex list — and consequently the width and thickness
results are always non-negative. -/
theorem bounds_invariant_amended (es : List Entity)
    (hwf : ∀ e ∈ es, WFEntity e) :
    ((∃ e ∈ es, contributesCoord e) →
      (boundsStateX es).1 ≤ (boundsStateX es).2 ∧
        (boundsStateY es).1 ≤ (boundsStateY es).2) ∧
      0 ≤ calculate_object_width es ∧ 0 ≤ calculate_object_thickness es := by
  have hOX := foldl_order Point.x Vertex.x es (⊤, ⊥) hwf
    (fun h => absurd rfl h)
  have hOY := foldl_order Point.y Vertex.y es (⊤, ⊥) hwf
    (fun h => absurd rfl h)
  refine ⟨?_, ?_, ?_⟩
  · intro hex
    rw [boundsStateX_def, boundsStateY_def]
    exact ⟨hOX (foldl_contrib_fst_ne_top Point.x Vertex.x es (⊤, ⊥) hex),
           hOY (foldl_contrib_fst_ne_top Point.y Vertex.y es (⊤, ⊥) hex)⟩
  · rw [calculate_object_width, boundsStateX_def]
    exact boundsResult_nonneg _
      (foldl_fst_ne_bot Point.x Vertex.x es (⊤, ⊥) top_ne_bot)
      (foldl_snd_ne_top Point.x Vertex.x es (⊤, ⊥) bot_ne_top) hOX
  · rw [calculate_object_thickness, boundsStateY_def]
    exact boundsResult_nonneg _
      (foldl_fst_ne_bot Point.y Vertex.y es (⊤, ⊥) top_ne_bot)
      (foldl_snd_ne_top Point.y Vertex.y es (⊤, ⊥) bot_ne_top) hOY

/-- Witness for claim C8 (amended): the single well-formed line from
(0,0) to (1,2) contributes coordinates, its trackers are ordered, and the
resulting width and thickness are non-negative. -/
theorem bounds_invariant_amended_witness :
    ((boundsStateX [Entity.line ⟨0, 0⟩ ⟨1, 2⟩]).1
        ≤ (boundsStateX [Entity.line ⟨0, 0⟩ ⟨1, 2⟩]).2) ∧
      0 ≤ calculate_object_width [Entity.line ⟨0, 0⟩ ⟨1, 2⟩] ∧
      0 ≤ calculate_object_thickness [Entity.line ⟨0, 0⟩ ⟨1, 2⟩] := by
  have h := bounds_invariant_amended [Entity.line ⟨0, 0⟩ ⟨1, 2⟩]
    (by intro e he
        simp only [List.mem_singleton] at he
        subst he
        trivial)
  exact ⟨(h.1 ⟨Entity.line ⟨0, 0⟩ ⟨1, 2⟩, by simp, trivial⟩).1, h.2.1, h.2.2⟩

/-- Monotonicity of one axis's extent result under appending one
well-formed entity. -/
theorem axis_append_mono (pc : Point → ℝ) (vc : Vertex → ℝ)
    (es : List Entity) (e : Entity) (hwf : WFEntity e) :
    boundsResult (es.foldl (updateBounds pc vc) (⊤, ⊥))
      ≤ boundsResult ((es ++ [e]).foldl (updateBounds pc vc) (⊤, ⊥)) := by
  have hfold : (es ++ [e]).foldl (updateBounds pc vc) (⊤, ⊥)
      = updateBounds pc vc (es.foldl (updateBounds pc vc) (⊤, ⊥)) e := by
    rw [List.foldl_append]
    rfl
  set st := es.foldl (updateBounds pc vc) (⊤, ⊥) with hst
  have h1 : st.1 ≠ ⊥ := foldl_fst_ne_bot pc vc es (⊤, ⊥) top_ne_bot
  have h2 : st.2 ≠ ⊤ := foldl_snd_ne_top pc vc es (⊤, ⊥) bot_ne_top
  have hlink : st.1 = ⊤ ↔ st.2 = ⊥ :=
    foldl_link pc vc es (⊤, ⊥) (Iff.intro (fun _ => rfl) (fun _ => rfl))
  rw [hfold]
  by_cases hg : st.1 = ⊤ ∨ st.2 = ⊥
  · have hs1 : st.1 = ⊤ := by
      rcases hg with h | h
      · exact h
      · exact hlink.mpr h
    have hs2 : st.2 = ⊥ := hlink.mp hs1
    have h0 : boundsResult st = 0 := by
      rw [boundsResult, if_pos hg]
    rw [h0]
    refine boundsResult_nonneg _ ?_ ?_ ?_
    · exact update_fst_ne_bot pc vc st e (by rw [hs1]; exact top_ne_bot)
    · exact update_snd_ne_top pc vc st e (by rw [hs2]; exact bot_ne_top)
    · exact update_order pc vc st e hwf (fun h => absurd hs1 h)
  · push_neg at hg
    have e1 : (updateBounds pc vc st e).1 ≤ st.1 := update_fst_le pc vc st e
    have e2 : st.2 ≤ (updateBounds pc vc st e).2 := update_snd_ge pc vc st e
    have n1 : (updateBounds pc vc st e).1 ≠ ⊤ := ne_top_of_le_ne_top hg.1 e1
    have n2 : (updateBounds pc vc st e).2 ≠ ⊥ := ne_bot_of_le_ne_bot hg.2 e2
    have n3 : (updateBounds pc vc st e).1 ≠ ⊥ := update_fst_ne_bot pc vc st e h1
    have n4 : (updateBounds pc vc st e).2 ≠ ⊤ := update_snd_ne_top pc vc st e h2
    rw [boundsResult, boundsResult, if_neg (not_or.mpr ⟨hg.1, hg.2⟩),
      if_neg (not_or.mpr ⟨n1, n2⟩)]
    have t1 := EReal.toReal_le_toReal e1 n3 hg.1
    have t2 := EReal.toReal_le_toReal e2 hg.2 n4
    linarith

/-- Claim C9: appending one well-formed entity never shrinks either axis's
bounding extent — the min tracker only goes down and the max tracker only
goes up — and consequently the width and the thickness never decrease,
including across the transition from the empty-sequence `0.0` value. -/
theorem append_monotone_extents (es : List Entity) (e : Entity)
    (hwf : WFEntity e) :
    (boundsStateX (es ++ [e])).1 ≤ (boundsStateX es).1 ∧
      (boundsStateX es).2 ≤ (boundsStateX (es ++ [e])).2 ∧
      (boundsStateY (es ++ [e])).1 ≤ (boundsStateY es).1 ∧
      (boundsStateY es).2 ≤ (boundsStateY (es ++ [e])).2 ∧
      calculate_object_width es ≤ calculate_object_width (es ++ [e]) ∧
      calculate_object_thickness es ≤ calculate_object_thickness (es ++ [e]) := by
  refine ⟨?_, ?_, ?_, ?_, ?_, ?_⟩
  · rw [boundsStateX_def, boundsStateX_def, List.foldl_append]
    exact update_fst_le _ _ _ _
  · rw [boundsStateX_def, boundsStateX_def, List.foldl_append]
    exact update_snd_ge _ _ _ _
  · rw [boundsStateY_def, boundsStateY_def, List.foldl_append]
    exact update_fst_le _ _ _ _
  · rw [boundsStateY_def, boundsStateY_def, List.foldl_append]
    exact update_snd_ge _ _ _ _
  · rw [calculate_object_width, calculate_object_width, boundsStateX_def,
      boundsStateX_def]
    exact axis_append_mono Point.x Vertex.x es e hwf
  · rw [calculate_object_thickness, calculate_object_thickness,
      boundsStateY_def, boundsStateY_def]
    exact axis_append_mono Point.y Vertex.y es e hwf

/-- Witness for claim C9: appending a well-formed unit circle to the empty
sequence does not decrease the width or the thickness. -/
theorem append_monotone_extents_witness :
    calculate_object_width []
        ≤ calculate_object_width ([] ++ [Entity.circle ⟨0, 0⟩ 1]) ∧
      calculate_object_thickness []
        ≤ calculate_object_thickness ([] ++ [Entity.circle ⟨0, 0⟩ 1]) := by
  have h := append_monotone_extents [] (Entity.circle ⟨0, 0⟩ 1)
    (by norm_num [WFEntity])
  exact ⟨h.2.2.2.2.1, h.2.2.2.2.2⟩

end Cnc
